import Mathlib

/-!
Verification of the `pi_mood` button-monitor program (`src/main.py`).

The program is embedded shallowly: every side-effecting call (GPIO
operations, logging, sleeping, the InfluxDB client calls) is recorded as an
element of an `Effect` trace, and each Python function becomes a Lean
function from its inputs (plus the outcomes of external calls it makes) to
the trace of effects it performs, together with the exception it lets
escape, if any.  Times are modelled as integers (milliseconds for
bouncetime and flash durations; an abstract integer instant for
`datetime.utcnow()`).
-/

set_option autoImplicit false

namespace PiMood

/-- Log severities used by `main.py` (`logger.debug` / `logger.info` /
`logger.error`). -/
inductive Sev where
  | debug
  | info
  | error
deriving DecidableEq, Repr

/-- A single InfluxDB measurement dictionary, as built in
`post_to_influxdb_callback`: a measurement name, a field map and a
timestamp.  The program always builds a singleton field map, but the model
keeps a list of pairs, mirroring the Python dict literal. -/
structure Measurement where
  measurement : String
  fields : List (String × Int)
  time : Int
deriving DecidableEq, Repr

/-- RPi.GPIO numeric constants used by the program. -/
def GPIO_BOARD : Nat := 10

/-- RPi.GPIO rising-edge constant. -/
def GPIO_RISING : Nat := 31

/-- RPi.GPIO pull-down constant. -/
def GPIO_PUD_DOWN : Nat := 21

/-- One observable side effect of the program.  Each constructor mirrors
one external call appearing in `src/main.py`. -/
inductive Effect where
  /-- A `logger.<sev>(msg)` call. -/
  | log (sev : Sev) (msg : String)
  /-- `GPIO.setmode(mode)`. -/
  | setmode (mode : Nat)
  /-- `GPIO.setup(pin, GPIO.IN, pull_up_down=pud)`. -/
  | setupIn (pin : Int) (pud : Nat)
  /-- `GPIO.setup(pin, GPIO.OUT)`. -/
  | setupOut (pin : Int)
  /-- `GPIO.output(pin, level)`; `high = true` means `GPIO.HIGH`. -/
  | output (pin : Int) (high : Bool)
  /-- `GPIO.add_event_detect(pin, edge, callback=..., bouncetime=bt)`. -/
  | addEventDetect (pin : Int) (edge : Nat) (bt : Int)
  /-- `GPIO.cleanup()`. -/
  | cleanup
  /-- `time.sleep(ms / 1000.0)`, recorded in milliseconds. -/
  | sleepMs (ms : Int)
  /-- `InfluxDBClient(database=db)` construction. -/
  | constructClient (db : String)
  /-- `influxdb_client.create_database(db)`. -/
  | createDatabase (db : String)
  /-- `influx_client.write_points([m])`. -/
  | writePoints (m : Measurement)
deriving DecidableEq, Repr

/-- An exception escaping a modelled call (e.g. a failing
`write_points` or `create_database`). -/
structure PyError where
  msg : String
deriving DecidableEq, Repr

/-- `ButtonModel` of `main.py` after validation: pin, label and value are
all required fields. -/
structure ButtonModel where
  pin : Int
  label : String
  value : Int
deriving DecidableEq, Repr

/-- `LedModel` of `main.py` after validation. -/
structure LedModel where
  pin : Int
  flash_time_ms : Int
deriving DecidableEq, Repr

/-- `InfluxdbModel` of `main.py` after validation. -/
structure InfluxdbModel where
  database_name : String
  measurement_name : String
deriving DecidableEq, Repr

/-- `OverallModel` of `main.py` as used at runtime, i.e. with the
`buttons`, `led` and `influxdb` sections actually present (the code in
`init_gpio`/`main` dereferences them unconditionally). -/
structure OverallModel where
  buttons : List ButtonModel
  led : LedModel
  bouncetime : Int
  influxdb : InfluxdbModel
deriving DecidableEq, Repr

/-! ## The handler functions -/

/-- `flash_led(led)`: log, drive the LED pin high, sleep for
`flash_time_ms` milliseconds, drive it low, log. -/
def flash_led (led : LedModel) : List Effect :=
  [Effect.log Sev.debug "Turning LED on.",
   Effect.output led.pin true,
   Effect.sleepMs led.flash_time_ms,
   Effect.output led.pin false,
   Effect.log Sev.debug "Turned LED off."]

/-- The measurement dictionary built inside the closure returned by
`post_to_influxdb_callback`: measurement name from the config, a single
field keyed by the button label holding the button value, and the current
UTC instant (`now` stands for `datetime.utcnow()`). -/
def influx_measurement (config : InfluxdbModel) (button : ButtonModel)
    (now : Int) : Measurement :=
  { measurement := config.measurement_name
    fields := [(button.label, button.value)]
    time := now }

/-- The closure returned by `post_to_influxdb_callback`, run on one button
press.  `writeOutcome` is the outcome of the external
`influx_client.write_points` call: `Except.ok r` models a normal return
value `r`, `Except.error e` models the call raising.  The code performs no
exception handling, so a raising `write_points` escapes the closure. -/
def post_callback_run (config : InfluxdbModel) (button : ButtonModel)
    (now : Int) (writeOutcome : Except PyError Bool) :
    List Effect × Option PyError :=
  let m := influx_measurement config button now
  match writeOutcome with
  | Except.error e =>
      ([Effect.log Sev.debug "Uploading measurement to influxdb.",
        Effect.writePoints m], some e)
  | Except.ok _ =>
      ([Effect.log Sev.debug "Uploading measurement to influxdb.",
        Effect.writePoints m,
        Effect.log Sev.debug "Influxdb response received."], none)

/-- The closure returned by `post_to_influxdb_and_flash_led_callback`:
first the InfluxDB upload closure, then `flash_led`, sequentially in the
same invocation.  An exception from the upload propagates and skips the
flash step (there is no try/except in the code). -/
def post_and_flash_run (config : OverallModel) (button : ButtonModel)
    (now : Int) (writeOutcome : Except PyError Bool) :
    List Effect × Option PyError :=
  match post_callback_run config.influxdb button now writeOutcome with
  | (t, some e) => (t, some e)
  | (t, none) => (t ++ flash_led config.led, none)

/-- The closure returned by `callback_for_button(button, handler)`, run
with the pin number delivered by the edge-detection facility.  It logs,
logs an error if the delivered pin differs from the button's pin, and then
invokes the handler unconditionally. -/
def callback_for_button_run (button : ButtonModel)
    (handler : ButtonModel → List Effect × Option PyError) (pin : Int) :
    List Effect × Option PyError :=
  let pre := Effect.log Sev.info "Button was pressed." ::
    (if pin ≠ button.pin then
      [Effect.log Sev.error "Callback got event for another button."]
    else [])
  match handler button with
  | (t, r) => (pre ++ t, r)

/-! ## GPIO initialisation and lifecycle -/

/-- The body of the `for button in physical_config.buttons` loop in
`init_gpio`: set the pin up as a pulled-down input and arm rising-edge
detection with the configured driver-level bouncetime. -/
def init_buttons (bouncetime : Int) : List ButtonModel → List Effect
  | [] => []
  | b :: rest =>
      Effect.setupIn b.pin GPIO_PUD_DOWN ::
      Effect.addEventDetect b.pin GPIO_RISING bouncetime ::
      init_buttons bouncetime rest

/-- `init_gpio(physical_config, button_handler)`: set BOARD numbering,
configure every button pin, then configure the LED pin as a low output. -/
def init_gpio (cfg : OverallModel) : List Effect :=
  Effect.setmode GPIO_BOARD ::
  init_buttons cfg.bouncetime cfg.buttons ++
  [Effect.setupOut cfg.led.pin,
   Effect.output cfg.led.pin false,
   Effect.log Sev.info "GPIO init complete."]

/-- `close_gpio()`: log and release all GPIO resources. -/
def close_gpio : List Effect :=
  [Effect.log Sev.info "Closing GPIO.", Effect.cleanup]

/-- `gpio_context(...)` from `main.py`, a `@contextmanager` whose body is
`try: init_gpio(...); yield; finally: close_gpio()`.  `init` is the trace
and escaping exception of the `init_gpio` call, `body` those of the code
run inside the `with` block.  Python's `finally` semantics: if `init`
raises, `close_gpio` still runs and the exception propagates; if the body
raises (or exits normally), `close_gpio` runs and the body's outcome
propagates. -/
def gpio_context_run (init : List Effect × Option PyError)
    (body : List Effect × Option PyError) : List Effect × Option PyError :=
  match init with
  | (t, some e) => (t ++ close_gpio, some e)
  | (t, none) =>
      match body with
      | (tb, r) => (t ++ tb ++ close_gpio, r)

/-- `get_influxdb_client(config)`: construct the client, then
`create_database` (idempotent on the server side).  `createOutcome` is the
outcome of the external `create_database` call; a raising call escapes. -/
def get_influxdb_client (config : InfluxdbModel)
    (createOutcome : Except PyError Unit) : List Effect × Option PyError :=
  match createOutcome with
  | Except.error e =>
      ([Effect.constructClient config.database_name,
        Effect.createDatabase config.database_name], some e)
  | Except.ok _ =>
      ([Effect.constructClient config.database_name,
        Effect.createDatabase config.database_name], none)

/-- The startup part of `main(config)`:
`post_to_influxdb_and_flash_led_callback` constructs the InfluxDB client
once (calling `get_influxdb_client`) before the `with gpio_context(...)`
statement arms any listener.  If client construction raises, `main`
propagates before any GPIO call happens. -/
def main_startup (cfg : OverallModel)
    (createOutcome : Except PyError Unit) : List Effect × Option PyError :=
  match get_influxdb_client cfg.influxdb createOutcome with
  | (t, some e) => (t, some e)
  | (t, none) => (t ++ init_gpio cfg, none)

/-! ## Configuration schema validation

`load_config_from_file` builds an `OverallModel` schematics model from the
raw YAML data and calls `cfg.validate` with partial validation disabled.
In the schematics library, a field declared `required=True` fails
validation when absent, a field with a `default` is filled with that
default when absent, and a field that is neither required nor defaulted is
simply `None` when absent.  In `main.py` the top-level `buttons`, `led`
and `influxdb` fields of `OverallModel` carry no `required=True`. -/

/-- Raw (pre-validation) YAML data for one button entry. -/
structure RawButtonModel where
  pin : Option Int
  label : Option String
  value : Option Int
deriving DecidableEq, Repr

/-- Raw YAML data for the `led` section. -/
structure RawLedModel where
  pin : Option Int
  flash_time_ms : Option Int
deriving DecidableEq, Repr

/-- Raw YAML data for the `influxdb` section. -/
structure RawInfluxdbModel where
  database_name : Option String
  measurement_name : Option String
deriving DecidableEq, Repr

/-- Raw YAML data for the whole configuration file. -/
structure RawOverallModel where
  buttons : Option (List RawButtonModel)
  led : Option RawLedModel
  bouncetime : Option Int
  influxdb : Option RawInfluxdbModel
deriving DecidableEq, Repr

/-- A schematics validation failure (a `DataError`), naming the offending
field.  The spec's error taxonomy calls this kind `ConfigurationError`. -/
structure ConfigurationError where
  field : String
deriving DecidableEq, Repr

/-- The result of validating `OverallModel`.  The non-required model
fields stay optional: schematics leaves an absent `buttons`, `led` or
`influxdb` as `None` without complaint. -/
structure ValidatedOverallModel where
  buttons : Option (List ButtonModel)
  led : Option LedModel
  bouncetime : Int
  influxdb : Option InfluxdbModel
deriving DecidableEq, Repr

/-- Validation of one `ButtonModel`: `pin`, `label` and `value` are all
`required=True` with no default. -/
def validateButton (r : RawButtonModel) : Except ConfigurationError ButtonModel :=
  match r.pin with
  | none => Except.error ⟨"buttons.pin"⟩
  | some p =>
    match r.label with
    | none => Except.error ⟨"buttons.label"⟩
    | some l =>
      match r.value with
      | none => Except.error ⟨"buttons.value"⟩
      | some v => Except.ok ⟨p, l, v⟩

/-- Validation of `LedModel`: `pin` is required with no default,
`flash_time_ms` is required with default 200, so an absent value is filled
with 200 and never fails. -/
def validateLed (r : RawLedModel) : Except ConfigurationError LedModel :=
  match r.pin with
  | none => Except.error ⟨"led.pin"⟩
  | some p => Except.ok ⟨p, r.flash_time_ms.getD 200⟩

/-- Validation of `InfluxdbModel`: `database_name` is required with no
default, `measurement_name` is required with default "pi_mood". -/
def validateInfluxdb (r : RawInfluxdbModel) :
    Except ConfigurationError InfluxdbModel :=
  match r.database_name with
  | none => Except.error ⟨"influxdb.database_name"⟩
  | some d => Except.ok ⟨d, r.measurement_name.getD "pi_mood"⟩

/-- Validate a list of button entries, mirroring schematics validation of
`ListType(ModelType(ButtonModel))` over the present list. -/
def validateButtons : List RawButtonModel →
    Except ConfigurationError (List ButtonModel)
  | [] => Except.ok []
  | r :: rest =>
    match validateButton r with
    | Except.error e => Except.error e
    | Except.ok b =>
      match validateButtons rest with
      | Except.error e => Except.error e
      | Except.ok bs => Except.ok (b :: bs)

/-- `cfg.validate(partial=False)` on `OverallModel`: validates each
present section; an absent `buttons`, `led` or `influxdb` passes as `None`
because those fields are not declared required; `bouncetime` has default
200. -/
def validateOverall (r : RawOverallModel) :
    Except ConfigurationError ValidatedOverallModel := do
  let bs ← match r.buttons with
    | none => pure none
    | some l => do
        let v ← validateButtons l
        pure (some v)
  let led ← match r.led with
    | none => pure none
    | some l => do
        let v ← validateLed l
        pure (some v)
  let ifx ← match r.influxdb with
    | none => pure none
    | some i => do
        let v ← validateInfluxdb i
        pure (some v)
  pure ⟨bs, led, r.bouncetime.getD 200, ifx⟩

/-- Did a validation succeed (no `DataError` raised)? -/
def exceptOk {ε α : Type} : Except ε α → Bool
  | Except.ok _ => true
  | Except.error _ => false

/-- The fields schematics actually requires of the raw data: every field
of every present button entry, the pin of a present led section and the
database name of a present influxdb section.  Absent top-level sections
impose nothing. -/
def requiredPresent (r : RawOverallModel) : Bool :=
  (match r.buttons with
   | none => true
   | some l => l.all (fun b => b.pin.isSome && b.label.isSome && b.value.isSome)) &&
  (match r.led with
   | none => true
   | some l => l.pin.isSome) &&
  (match r.influxdb with
   | none => true
   | some i => i.database_name.isSome)

/-! ## Effect discriminators -/

/-- Is this effect a `GPIO.cleanup()` call? -/
def Effect.isCleanup : Effect → Bool
  | Effect.cleanup => true
  | _ => false

/-- Is this effect an `add_event_detect` registration (on any pin)? -/
def Effect.isAddEvent : Effect → Bool
  | Effect.addEventDetect _ _ _ => true
  | _ => false

/-- Is this effect an `add_event_detect` registration on pin `p`? -/
def Effect.isAddEventOn (p : Int) : Effect → Bool
  | Effect.addEventDetect q _ _ => q == p
  | _ => false

/-- Is this effect a `write_points` submission? -/
def Effect.isWrite : Effect → Bool
  | Effect.writePoints _ => true
  | _ => false

/-- Is this effect an output transition to HIGH? -/
def Effect.isOutputHigh : Effect → Bool
  | Effect.output _ true => true
  | _ => false

/-- Is this effect an output transition to LOW? -/
def Effect.isOutputLow : Effect → Bool
  | Effect.output _ false => true
  | _ => false

/-- Is this effect a log call at error severity? -/
def Effect.isErrorLog : Effect → Bool
  | Effect.log Sev.error _ => true
  | _ => false

/-- Is this effect the construction of an `InfluxDBClient`? -/
def Effect.isConstruct : Effect → Bool
  | Effect.constructClient _ => true
  | _ => false

/-- Is this effect a `create_database` call? -/
def Effect.isCreateDb : Effect → Bool
  | Effect.createDatabase _ => true
  | _ => false

/-- Is this effect a `GPIO.setmode` call? -/
def Effect.isSetmode : Effect → Bool
  | Effect.setmode _ => true
  | _ => false

/-- The measurements submitted by `write_points` calls in a trace, in
order. -/
def writesOf : List Effect → List Measurement
  | [] => []
  | Effect.writePoints m :: rest => m :: writesOf rest
  | _ :: rest => writesOf rest

/-- The timestamps of all measurements submitted in a trace, in order. -/
def writeTimes (t : List Effect) : List Int :=
  (writesOf t).map Measurement.time

/-- Index of the first effect satisfying `p`, if any. -/
def firstIdx (p : Effect → Bool) : List Effect → Option Nat
  | [] => none
  | e :: rest => if p e then some 0 else (firstIdx p rest).map Nat.succ

/-! ## GPIO facility state

Modelled from the spec: the platform GPIO facility itself is not part of
this repository; §4.1 of the spec specifies its `release_all()` teardown
as releasing every claimed pin and disarming all listeners.  The model
tracks the set of claimed pins and armed listeners; `cleanup` empties
both. -/

/-- The claimed-resource state of the GPIO facility. -/
structure GpioState where
  claimed : List Int
  listeners : List Int
deriving DecidableEq, Repr

/-- The effect of one program action on the GPIO facility state:
`setup` claims a pin, `add_event_detect` arms a listener, `cleanup`
releases everything.  All other effects leave the state unchanged. -/
def applyEffect (s : GpioState) : Effect → GpioState
  | Effect.setupIn p _ => { s with claimed := p :: s.claimed }
  | Effect.setupOut p => { s with claimed := p :: s.claimed }
  | Effect.addEventDetect p _ _ => { s with listeners := p :: s.listeners }
  | Effect.cleanup => ⟨[], []⟩
  | _ => s

/-- Run a whole trace against the GPIO facility state. -/
def runEffects (s : GpioState) : List Effect → GpioState
  | [] => s
  | e :: rest => runEffects (applyEffect s e) rest

/-! ## Edge sequences on one pin

The edge-delivery mechanism invokes the registered callback once per
delivered edge.  `run_edges` is the trace produced by delivering each edge
instant of a list, in order, to the callback registered for `button`
(namely `callback_for_button(button, post_to_influxdb_and_flash_led_callback(cfg))`),
with the delivered pin equal to the button's own pin and every
`write_points` call succeeding. -/
def run_edges (cfg : OverallModel) (button : ButtonModel) :
    List Int → List Effect
  | [] => []
  | t :: rest =>
      (callback_for_button_run button
        (fun b => post_and_flash_run cfg b t (Except.ok true)) button.pin).1 ++
      run_edges cfg button rest

/-- Modelled from the spec: §4.2 DebounceGate policy — accept if
`last_accepted_instant` is unset or `now - last_accepted_instant >=
bouncetime`.  This definition follows the spec's words; no corresponding
software gate exists in `src/main.py`. -/
def debounceGate (lastAccepted : Option Int) (bouncetime now : Int) : Bool :=
  match lastAccepted with
  | none => true
  | some t => decide (bouncetime ≤ now - t)

/-! ## Concurrent flash interleavings

Modelled from the spec: §5 — the edge-delivery mechanism may run the
handlers of two different buttons concurrently, and `src/main.py` contains
no synchronisation primitive, so a concurrent execution of two handlers is
an arbitrary interleaving of their effect traces.  Effects are tagged with
a Boolean invocation identity. -/

/-- `Interleave l1 l2 l`: `l` is an interleaving of `l1` and `l2`
(each keeps its relative order). -/
inductive Interleave {α : Type} : List α → List α → List α → Prop where
  | nil : Interleave [] [] []
  | left {a : α} {l1 l2 l : List α} :
      Interleave l1 l2 l → Interleave (a :: l1) l2 (a :: l)
  | right {a : α} {l1 l2 l : List α} :
      Interleave l1 l2 l → Interleave l1 (a :: l2) (a :: l)

/-- The trace of one `flash_led` invocation, tagged with which invocation
produced each effect. -/
def flashTagged (led : LedModel) (id : Bool) : List (Bool × Effect) :=
  (flash_led led).map (fun e => (id, e))

/-- Scanning inside invocation `a`'s on-window (after its HIGH, before its
LOW): does the other invocation drive the shared output LOW first? -/
def windowCutAfterOn (a : Bool) : List (Bool × Effect) → Bool
  | [] => false
  | p :: rest =>
      if p.1 == a && p.2.isOutputLow then false
      else if p.1 != a && p.2.isOutputLow then true
      else windowCutAfterOn a rest

/-- Does some other invocation's LOW transition fall strictly inside
invocation `a`'s on-window in the tagged trace? -/
def windowCut (a : Bool) : List (Bool × Effect) → Bool
  | [] => false
  | p :: rest =>
      if p.1 == a && p.2.isOutputHigh then windowCutAfterOn a rest
      else windowCut a rest

/-- A concrete schedule of two concurrent `flash_led` invocations on the
shared LED pin: invocation `true` turns the LED on, then invocation
`false` runs to completion (its final action drives the pin LOW), then
invocation `true` resumes. -/
def badSchedule (led : LedModel) : List (Bool × Effect) :=
  [(true, Effect.log Sev.debug "Turning LED on."),
   (true, Effect.output led.pin true)] ++
  flashTagged led false ++
  [(true, Effect.sleepMs led.flash_time_ms),
   (true, Effect.output led.pin false),
   (true, Effect.log Sev.debug "Turned LED off.")]

/-! ## Concrete configurations (the spec's §8 end-to-end scenario) -/

/-- The button of the end-to-end scenario: pin 5, label "happy", value 1. -/
def happyBtn : ButtonModel := ⟨5, "happy", 1⟩

/-- The LED of the end-to-end scenario: pin 6, 200 ms flash. -/
def led6 : LedModel := ⟨6, 200⟩

/-- The InfluxDB section of the end-to-end scenario. -/
def influxCfg : InfluxdbModel := ⟨"mood_db", "pi_mood"⟩

/-- The end-to-end scenario configuration with bouncetime 200 ms. -/
def cfg200 : OverallModel := ⟨[happyBtn], led6, 200, influxCfg⟩

/-- A configuration in which two buttons share pin 5. -/
def dupCfg : OverallModel :=
  ⟨[happyBtn, ⟨5, "sad", 0⟩], led6, 200, influxCfg⟩

/-- Raw configuration data with two buttons sharing pin 5 and every
required field present. -/
def dupRaw : RawOverallModel :=
  ⟨some [⟨some 5, some "happy", some 1⟩, ⟨some 5, some "sad", some 0⟩],
   some ⟨some 6, some 200⟩, some 200, some ⟨some "mood_db", some "pi_mood"⟩⟩

/-- Raw configuration data missing the `buttons` list, the `led` section
and the `influxdb` section entirely. -/
def emptyRaw : RawOverallModel := ⟨none, none, none, none⟩

/-! ## Helper lemmas -/

lemma writesOf_append (l1 l2 : List Effect) :
    writesOf (l1 ++ l2) = writesOf l1 ++ writesOf l2 := by
  induction l1 with
  | nil => rfl
  | cons e rest ih => cases e <;> simp [writesOf, ih]

lemma writeTimes_append (l1 l2 : List Effect) :
    writeTimes (l1 ++ l2) = writeTimes l1 ++ writeTimes l2 := by
  simp [writeTimes, writesOf_append]

lemma runEffects_append (s : GpioState) (l1 l2 : List Effect) :
    runEffects s (l1 ++ l2) = runEffects (runEffects s l1) l2 := by
  induction l1 generalizing s with
  | nil => rfl
  | cons e rest ih => simp [runEffects, ih]

lemma init_buttons_countP_zero (p : Effect → Bool)
    (h1 : ∀ pin pud, p (Effect.setupIn pin pud) = false)
    (h2 : ∀ pin edge bt, p (Effect.addEventDetect pin edge bt) = false)
    (bt : Int) (l : List ButtonModel) :
    (init_buttons bt l).countP p = 0 := by
  induction l with
  | nil => rfl
  | cons b rest ih => simp [init_buttons, List.countP_cons, h1, h2, ih]

lemma mem_init_buttons (bt : Int) {l : List ButtonModel} {b : ButtonModel}
    (h : b ∈ l) :
    Effect.addEventDetect b.pin GPIO_RISING bt ∈ init_buttons bt l := by
  induction l with
  | nil => cases h
  | cons x rest ih =>
    rcases List.mem_cons.mp h with h1 | h2
    · subst h1
      simp [init_buttons]
    · exact List.mem_cons_of_mem _ (List.mem_cons_of_mem _ (ih h2))

lemma writesOf_callback (cfg : OverallModel) (button : ButtonModel)
    (now : Int) (w : Except PyError Bool) :
    writesOf (callback_for_button_run button
      (fun b => post_and_flash_run cfg b now w) button.pin).1 =
    [influx_measurement cfg.influxdb button now] := by
  cases w <;>
    simp [callback_for_button_run, post_and_flash_run, post_callback_run,
      flash_led, writesOf, writesOf_append]

lemma validateButton_ok (b : RawButtonModel) :
    exceptOk (validateButton b) =
      (b.pin.isSome && b.label.isSome && b.value.isSome) := by
  obtain ⟨p, l, v⟩ := b
  cases p <;> cases l <;> cases v <;> rfl

lemma validateButtons_cons (b : RawButtonModel) (rest : List RawButtonModel) :
    exceptOk (validateButtons (b :: rest)) =
      (exceptOk (validateButton b) && exceptOk (validateButtons rest)) := by
  cases hb : validateButton b <;> cases hr : validateButtons rest <;>
    simp [validateButtons, hb, hr, exceptOk]

lemma validateButtons_ok (l : List RawButtonModel) :
    exceptOk (validateButtons l) =
      l.all (fun b => b.pin.isSome && b.label.isSome && b.value.isSome) := by
  induction l with
  | nil => rfl
  | cons b rest ih => rw [validateButtons_cons, validateButton_ok, ih, List.all_cons]

/-! ## The claims -/

/-- C5: for every accepted press, the composed handler initiates the
measurement submission (the `write_points` call) strictly before the
indicator output is set high, both on the same synchronous invocation:
in the trace of `post_to_influxdb_and_flash_led_callback`'s closure the
first submission effect has a strictly smaller index than the first
HIGH transition. -/
theorem upload_before_flash (cfg : OverallModel) (button : ButtonModel)
    (now : Int) (r : Bool) :
    ∃ i j,
      firstIdx Effect.isWrite
        (post_and_flash_run cfg button now (Except.ok r)).1 = some i ∧
      firstIdx Effect.isOutputHigh
        (post_and_flash_run cfg button now (Except.ok r)).1 = some j ∧
      i < j :=
  ⟨1, 4, rfl, rfl, by omega⟩

/-- C6: for every accepted press of a button, the registered handler
submits exactly one data point, whose measurement name is the configured
one, whose field map is the single pair of the button's label and integer
value, and whose timestamp is the current UTC instant. -/
theorem single_point_per_press (cfg : OverallModel) (button : ButtonModel)
    (now : Int) (w : Except PyError Bool) :
    writesOf (callback_for_button_run button
        (fun b => post_and_flash_run cfg b now w) button.pin).1 =
      [influx_measurement cfg.influxdb button now] ∧
    influx_measurement cfg.influxdb button now =
      ⟨cfg.influxdb.measurement_name, [(button.label, button.value)], now⟩ :=
  ⟨writesOf_callback cfg button now w, rfl⟩

/-- C9: `init_gpio` sets the pin-numbering mode to physical BOARD
numbering as its very first action — before any pin is configured — and
sets the mode exactly once. -/
theorem setmode_board_first (cfg : OverallModel) :
    (init_gpio cfg).head? = some (Effect.setmode GPIO_BOARD) ∧
    (init_gpio cfg).countP Effect.isSetmode = 1 := by
  refine ⟨rfl, ?_⟩
  simp [init_gpio, List.countP_cons, List.countP_append,
    init_buttons_countP_zero Effect.isSetmode (fun _ _ => rfl) (fun _ _ _ => rfl),
    Effect.isSetmode]

/-- C2 (amended): when the `write_points` call raises, the exception
propagates out of the registered handler into the edge-delivery
mechanism, the flash step does not run on that invocation, and no
error-severity log is emitted: there is no exception handling in the
handler chain. -/
theorem upload_failure_propagates (cfg : OverallModel) (button : ButtonModel)
    (now : Int) (e : PyError) :
    (callback_for_button_run button
        (fun b => post_and_flash_run cfg b now (Except.error e)) button.pin).2 =
      some e ∧
    (callback_for_button_run button
        (fun b => post_and_flash_run cfg b now (Except.error e)) button.pin).1.countP
      Effect.isOutputHigh = 0 ∧
    (callback_for_button_run button
        (fun b => post_and_flash_run cfg b now (Except.error e)) button.pin).1.countP
      Effect.isErrorLog = 0 := by
  refine ⟨rfl, ?_, ?_⟩ <;>
    simp [callback_for_button_run, post_and_flash_run, post_callback_run,
      List.countP_cons, List.countP_append, Effect.isOutputHigh, Effect.isErrorLog]

/-- C1 (amended): the program applies no software-level debounce of its
own — the registered callback invokes the handler once for every edge the
driver delivers, so the submitted timestamps are exactly the delivered
edge instants; the only suppression is the driver-level one requested by
passing the configured bouncetime to `add_event_detect` for the button's
pin. -/
theorem debounce_no_software_gate (cfg : OverallModel) (button : ButtonModel)
    (edges : List Int) (hmem : button ∈ cfg.buttons) :
    writeTimes (run_edges cfg button edges) = edges ∧
    Effect.addEventDetect button.pin GPIO_RISING cfg.bouncetime ∈
      init_gpio cfg := by
  constructor
  · induction edges with
    | nil => rfl
    | cons t rest ih =>
        rw [run_edges, writeTimes_append, ih]
        simp [writeTimes, writesOf_callback, influx_measurement]
  · exact List.mem_cons_of_mem _
      (List.mem_append_left _ (mem_init_buttons cfg.bouncetime hmem))

/-- C1 (witness): the amended theorem applied to the §8 scenario
configuration and the edge instants 0 and 1 ms. -/
theorem debounce_no_software_gate_witness :
    happyBtn ∈ cfg200.buttons ∧
    (writeTimes (run_edges cfg200 happyBtn [0, 1]) = [0, 1] ∧
     Effect.addEventDetect happyBtn.pin GPIO_RISING cfg200.bouncetime ∈
       init_gpio cfg200) :=
  ⟨by decide, debounce_no_software_gate cfg200 happyBtn [0, 1] (by decide)⟩

/-- C1 (counterexample): two edges delivered 1 ms apart on the scenario
configuration (bouncetime 200 ms) both invoke the handler and both submit
a point — two accepted instants closer together than the bouncetime —
while the spec's DebounceGate policy would reject the second.  So the
claimed software-level gate does not exist in the code. -/
theorem debounce_software_gate_cex :
    writeTimes (run_edges cfg200 happyBtn [0, 1]) = [0, 1] ∧
    debounceGate (some 0) cfg200.bouncetime 1 = false ∧
    (1 : Int) - 0 < cfg200.bouncetime := by
  decide

/-- C3: `gpio_context` runs the teardown exactly once on every exit path
(normal body exit, body exception, and an `init_gpio` failure after
partial configuration), the final GPIO facility state has no claimed pin
and no armed listener, and the modelled `cleanup` teardown is
idempotent. -/
theorem gpio_teardown_exactly_once (init body : List Effect × Option PyError)
    (hi : init.1.countP Effect.isCleanup = 0)
    (hb : body.1.countP Effect.isCleanup = 0) :
    (gpio_context_run init body).1.countP Effect.isCleanup = 1 ∧
    (∀ s : GpioState, runEffects s (gpio_context_run init body).1 = ⟨[], []⟩) ∧
    (∀ s : GpioState,
      applyEffect (applyEffect s Effect.cleanup) Effect.cleanup =
        applyEffect s Effect.cleanup) := by
  obtain ⟨ti, ei⟩ := init
  obtain ⟨tb, eb⟩ := body
  simp only at hi hb
  cases ei with
  | some e =>
      refine ⟨?_, ?_, fun s => rfl⟩
      · simp [gpio_context_run, close_gpio, List.countP_append,
          List.countP_cons, Effect.isCleanup, hi]
      · intro s
        show runEffects s (ti ++ close_gpio) = ⟨[], []⟩
        rw [runEffects_append]
        rfl
  | none =>
      refine ⟨?_, ?_, fun s => rfl⟩
      · simp [gpio_context_run, close_gpio, List.countP_append,
          List.countP_cons, Effect.isCleanup, hi, hb]
      · intro s
        show runEffects s (ti ++ tb ++ close_gpio) = ⟨[], []⟩
        rw [runEffects_append, runEffects_append]
        rfl

/-- C3 (witness): the exactly-once theorem applied to a run that arms the
scenario configuration and then exits the wait loop with an error. -/
theorem gpio_teardown_exactly_once_witness :
    ((init_gpio cfg200, (none : Option PyError)).1.countP Effect.isCleanup = 0 ∧
     (([Effect.sleepMs 300], some (⟨"KeyboardInterrupt"⟩ : PyError)).1.countP
       Effect.isCleanup = 0)) ∧
    ((gpio_context_run (init_gpio cfg200, none)
        ([Effect.sleepMs 300], some ⟨"KeyboardInterrupt"⟩)).1.countP
      Effect.isCleanup = 1 ∧
     (∀ s : GpioState, runEffects s
        (gpio_context_run (init_gpio cfg200, none)
          ([Effect.sleepMs 300], some ⟨"KeyboardInterrupt"⟩)).1 = ⟨[], []⟩) ∧
     (∀ s : GpioState,
       applyEffect (applyEffect s Effect.cleanup) Effect.cleanup =
         applyEffect s Effect.cleanup)) :=
  ⟨⟨by decide, by decide⟩,
   gpio_teardown_exactly_once (init_gpio cfg200, none)
     ([Effect.sleepMs 300], some ⟨"KeyboardInterrupt"⟩) (by decide) (by decide)⟩

/-- C4 (amended): a configuration with two buttons on the same pin passes
schema validation unchanged (the schema has no uniqueness rule), and
`init_gpio` then attempts to arm an edge listener for each occurrence,
issuing two registrations on the shared pin; rejection, if any, can only
come from the GPIO facility, not from a ConfigurationError raised by the
program. -/
theorem duplicate_pin_not_rejected :
    exceptOk (validateOverall dupRaw) = true ∧
    validateOverall dupRaw =
      Except.ok ⟨some dupCfg.buttons, some dupCfg.led, dupCfg.bouncetime,
        some dupCfg.influxdb⟩ ∧
    (init_gpio dupCfg).countP (Effect.isAddEventOn 5) = 2 :=
  ⟨rfl, rfl, by decide⟩

/-- C4 (counterexample): the duplicate-pin configuration `dupRaw` (both
buttons on pin 5) is accepted by validation, and GPIO initialisation
proceeds to arm a listener on the duplicated pin — contradicting the
claim that startup fails with a ConfigurationError before arming and that
no listener is registered for the duplicated pin. -/
theorem duplicate_pin_config_error_cex :
    dupCfg.buttons.map ButtonModel.pin = [5, 5] ∧
    exceptOk (validateOverall dupRaw) = true ∧
    firstIdx (Effect.isAddEventOn 5) (init_gpio dupCfg) = some 2 := by
  decide

/-- C2 (counterexample): with the scenario configuration, a failing
submission makes the handler raise (`some` escaping exception), perform
no HIGH transition (no flash), and log nothing at error severity —
contradicting the claim that the failure is logged at error severity, the
flash still runs and the fault does not unwind past the handler
boundary. -/
theorem upload_failure_handling_cex :
    (post_and_flash_run cfg200 happyBtn 0 (Except.error ⟨"connection refused"⟩)).2 =
      some ⟨"connection refused"⟩ ∧
    (post_and_flash_run cfg200 happyBtn 0 (Except.error ⟨"connection refused"⟩)).1.countP
      Effect.isOutputHigh = 0 ∧
    (post_and_flash_run cfg200 happyBtn 0 (Except.error ⟨"connection refused"⟩)).1.countP
      Effect.isErrorLog = 0 := by
  decide

/-- C7 (amended): schema validation succeeds exactly when every required
field of every present section is present — a missing field inside a
present `buttons` entry, a present `led` section missing its pin, or a
present `influxdb` section missing its database name fails validation,
but the top-level `buttons`, `led` and `influxdb` sections themselves are
not required, so a configuration omitting them validates successfully. -/
theorem validate_ok_iff_required (r : RawOverallModel) :
    exceptOk (validateOverall r) = requiredPresent r := by
  obtain ⟨obs, oled, obt, oifx⟩ := r
  rcases obs with _ | l
  · rcases oled with _ | ⟨_ | p, of⟩ <;>
      rcases oifx with _ | ⟨_ | d, om⟩ <;> rfl
  · cases hb : validateButtons l with
    | error e =>
        have h2 : l.all
            (fun b => b.pin.isSome && b.label.isSome && b.value.isSome) = false := by
          rw [← validateButtons_ok, hb]; rfl
        simp [validateOverall, requiredPresent, hb, h2, exceptOk,
          Bind.bind, Except.bind]
    | ok bs =>
        have h2 : l.all
            (fun b => b.pin.isSome && b.label.isSome && b.value.isSome) = true := by
          rw [← validateButtons_ok, hb]; rfl
        rcases oled with _ | ⟨_ | p, of⟩ <;>
          rcases oifx with _ | ⟨_ | d, om⟩ <;>
          simp [validateOverall, requiredPresent, hb, h2, exceptOk,
            Bind.bind, Except.bind, validateLed, validateInfluxdb] <;> rfl

/-- C7 (counterexample): the raw configuration with no `buttons` list, no
`led` section and no `influxdb` section passes `validate(partial=False)`
— those top-level fields are not declared required — contradicting the
claim that such incomplete configurations fail with a
ConfigurationError. -/
theorem missing_sections_validate_cex :
    validateOverall emptyRaw =
      Except.ok ⟨none, none, 200, none⟩ ∧
    emptyRaw.buttons = none ∧ emptyRaw.led = none ∧
    emptyRaw.influxdb = none :=
  ⟨rfl, rfl, rfl, rfl⟩

/-- C8 (amended): `flash_led` carries no mutual-exclusion lock, so under
the concurrency model of the spec (handlers of different buttons may run
concurrently) the two invocations' effects can interleave so that one
invocation's LOW transition on the shared indicator pin lands strictly
inside the other invocation's on-window: the mutual exclusion the claim
asserts is not enforced by the program. -/
theorem flash_no_mutual_exclusion (led : LedModel) :
    Interleave (flashTagged led true) (flashTagged led false)
      (badSchedule led) ∧
    windowCut true (badSchedule led) = true :=
  ⟨Interleave.left (Interleave.left (Interleave.right (Interleave.right
     (Interleave.right (Interleave.right (Interleave.right
     (Interleave.left (Interleave.left (Interleave.left Interleave.nil))))))))),
   rfl⟩

/-- C8 (counterexample): for the scenario LED (pin 6, 200 ms) there is a
valid interleaving of two concurrent `flash_led` invocations in which the
second invocation's off transition cuts short the first one's on-window —
refuting the claimed absence of such interleavings. -/
theorem flash_mutual_exclusion_cex :
    Interleave (flashTagged led6 true) (flashTagged led6 false)
      (badSchedule led6) ∧
    windowCut true (badSchedule led6) = true :=
  ⟨Interleave.left (Interleave.left (Interleave.right (Interleave.right
     (Interleave.right (Interleave.right (Interleave.right
     (Interleave.left (Interleave.left (Interleave.left Interleave.nil))))))))),
   rfl⟩

/-- C10: the InfluxDB client is constructed exactly once, together with
the `create_database` call, when `main` builds the composed handler —
before `init_gpio` arms any edge listener; a construction failure aborts
startup before any listener exists; and the per-press handler trace
contains no client construction (every press reuses the startup
client). -/
theorem influx_client_constructed_once (cfg : OverallModel) (e : PyError)
    (button : ButtonModel) (now : Int) (w : Except PyError Bool) :
    (main_startup cfg (Except.ok ())).1 =
      Effect.constructClient cfg.influxdb.database_name ::
      Effect.createDatabase cfg.influxdb.database_name :: init_gpio cfg ∧
    (init_gpio cfg).countP Effect.isConstruct = 0 ∧
    (init_gpio cfg).countP Effect.isCreateDb = 0 ∧
    (main_startup cfg (Except.error e)).1.countP Effect.isAddEvent = 0 ∧
    (main_startup cfg (Except.error e)).2 = some e ∧
    (callback_for_button_run button
        (fun b => post_and_flash_run cfg b now w) button.pin).1.countP
      Effect.isConstruct = 0 := by
  refine ⟨rfl, ?_, ?_, rfl, rfl, ?_⟩
  · simp [init_gpio, List.countP_cons, List.countP_append,
      init_buttons_countP_zero Effect.isConstruct (fun _ _ => rfl) (fun _ _ _ => rfl),
      Effect.isConstruct]
  · simp [init_gpio, List.countP_cons, List.countP_append,
      init_buttons_countP_zero Effect.isCreateDb (fun _ _ => rfl) (fun _ _ _ => rfl),
      Effect.isCreateDb]
  · cases w <;> simp [callback_for_button_run, post_and_flash_run,
      post_callback_run, flash_led, List.countP_cons, List.countP_append,
      Effect.isConstruct]

end PiMood
